import Mathlib

/-!
Shallow embedding of the WorkNet order lifecycle engine
(`src/services/ordres_service.py`, class `OrdersService`) and proofs about it.

Modelling conventions:
* MongoDB object ids are strings; `isValidOid` mirrors `bson.ObjectId`'s
  acceptance of 24-character hex strings (`_validate_oid`).
* Timestamps are integers (seconds since epoch, UTC); each engine operation
  receives the current instant `now` in place of `datetime.utcnow()`.
  A `timedelta` of `d` days is `d * 86400` seconds.
* Monetary values are rationals (`price` is `float(...)`-converted in the
  source; we model exact decimal arithmetic, `amount = price * quantity`).
* Freshly generated `ObjectId()` values are drawn from a counter `nextId`
  threaded through the database state.
* `update_one` updates the first document matching the filter (`updateFirstBy`),
  and is a no-op when nothing matches; `find_one` returns the first match.
* Each service method returns `(Res, DB)`: the JSON-ish
  `{"success": ..., "error"/"order_id": ...}` response together with the
  database state after the call.  Exceptions raised inside the `try` blocks
  (invalid object ids) are modelled by the error result the `except` clause
  produces.
-/

namespace OrdersService

/-- A hexadecimal character, as accepted by `bson.ObjectId`. -/
def isHexChar (c : Char) : Bool :=
  (48 ≤ c.toNat && c.toNat ≤ 57) || (97 ≤ c.toNat && c.toNat ≤ 102) ||
    (65 ≤ c.toNat && c.toNat ≤ 70)

/-- `_validate_oid`: a string parses as a `bson.ObjectId` iff it is a
24-character hex string. -/
def isValidOid (s : String) : Bool :=
  s.length == 24 && s.data.all isHexChar

/-- A freshly generated `ObjectId()` string, drawn from the id counter. -/
def freshOid (n : Nat) : String :=
  let digits := Nat.toDigits 16 n
  String.mk (List.replicate (24 - digits.length) '0' ++ digits)

/-- One entry of an order's embedded `timeline` audit array
(built by `_add_timeline`). -/
structure TimelineEntry where
  id : Nat
  action : String
  user_id : Option String
  timestamp : Int
  extra : List (String × Option String)
deriving DecidableEq

/-- One element of an order's `delivery_files` array (built by
`deliver_order`). -/
structure DeliveryFile where
  id : Nat
  file_url : String
  file_name : Option String
  uploaded_at : Int
deriving DecidableEq

/-- An order document of the `orders` collection.  `cancel_reason` and
`dispute_resolution` are absent (`none`) until the corresponding operation
first sets them. -/
structure Order where
  id : String
  gig_id : String
  client_id : String
  freelancer_id : String
  price : Rat
  quantity : Int
  requirements : List String
  delivery_files : List DeliveryFile
  timeline : List TimelineEntry
  status : String
  created_at : Int
  updated_at : Int
  expected_delivery : Option Int
  started_at : Option Int
  delivered_at : Option Int
  completed_at : Option Int
  cancelled_at : Option Int
  cancel_reason : Option (Option String) := none
  dispute_resolution : Option String := none
deriving DecidableEq

/-- A payment-release document of the `payments` collection
(inserted by `complete_order`). -/
structure Payment where
  id : Nat
  order_id : String
  client_id : String
  freelancer_id : String
  amount : Rat
  payment_method : String
  status : String
  created_at : Int
  updated_at : Int
deriving DecidableEq

/-- The statistics counters of a gig document touched by the engine's
`$inc` update. -/
structure Gig where
  id : String
  total_orders : Int
  total_earning : Rat
deriving DecidableEq

/-- The collections the orders service reads and writes, plus the fresh-id
counter. -/
structure DB where
  orders : List Order
  payments : List Payment
  gigs : List Gig
  nextId : Nat
deriving DecidableEq

/-- The dict each service method returns: `{"success": True, ...}` with an
optional `order_id` payload, or `{"success": False, "error": msg}`. -/
inductive Res where
  | ok : Option String → Res
  | err : String → Res
deriving DecidableEq

/-- Whether a result is a failure (`"success": False`). -/
def Res.isErr : Res → Bool
  | .ok _ => false
  | .err _ => true

/-- `update_one`: apply `f` to the first element matching `p`, leaving the
rest (and a match-less list) unchanged. -/
def updateFirstBy {α : Type} (p : α → Bool) (f : α → α) : List α → List α
  | [] => []
  | a :: l => if p a then f a :: l else a :: updateFirstBy p f l

/-- `find_one` on the `orders` collection. -/
def findOrder (db : DB) (oid : String) : Option Order :=
  db.orders.find? (fun o => o.id == oid)

/-- `update_one` on the `orders` collection, keyed by id. -/
def setOrder (db : DB) (oid : String) (f : Order → Order) : DB :=
  { db with orders := updateFirstBy (fun o => o.id == oid) f db.orders }

/-- `_add_timeline`: push an audit entry (with a fresh `_id`) onto the
matching order's `timeline`; never fails, no-op when the order is absent. -/
def addTimeline (db : DB) (oid : String) (action : String) (uid : Option String)
    (now : Int) (extra : List (String × Option String)) : DB :=
  let entry : TimelineEntry :=
    { id := db.nextId, action := action, user_id := uid, timestamp := now, extra := extra }
  { db with
    orders := updateFirstBy (fun o => o.id == oid)
      (fun o => { o with timeline := o.timeline ++ [entry] }) db.orders,
    nextId := db.nextId + 1 }

/-- The input dict of `create_order`; `none` models an absent key. -/
structure CreateData where
  gig_id : Option String := none
  client_id : Option String := none
  freelancer_id : Option String := none
  price : Option Rat := none
  quantity : Option Int := none
deriving DecidableEq

/-- `create_order(data)`.  The `required` loop rejects absent *and falsy*
values (`not data[r]`): empty id strings, `price == 0`, `quantity == 0`. -/
def create_order (db : DB) (now : Int) (data : CreateData) : Res × DB :=
  if data.gig_id = none ∨ data.gig_id = some "" then
    (.err "Missing field 'gig_id'", db)
  else if data.client_id = none ∨ data.client_id = some "" then
    (.err "Missing field 'client_id'", db)
  else if data.freelancer_id = none ∨ data.freelancer_id = some "" then
    (.err "Missing field 'freelancer_id'", db)
  else if data.price = none ∨ data.price = some 0 then
    (.err "Missing field 'price'", db)
  else if data.quantity = none ∨ data.quantity = some 0 then
    (.err "Missing field 'quantity'", db)
  else
    let g := data.gig_id.getD ""
    let c := data.client_id.getD ""
    let f := data.freelancer_id.getD ""
    if isValidOid g = false then (.err "Invalid ObjectId for 'gig_id'", db)
    else if isValidOid c = false then (.err "Invalid ObjectId for 'client_id'", db)
    else if isValidOid f = false then (.err "Invalid ObjectId for 'freelancer_id'", db)
    else
      let oid := freshOid db.nextId
      let order : Order :=
        { id := oid, gig_id := g, client_id := c, freelancer_id := f,
          price := data.price.getD 0, quantity := data.quantity.getD 0,
          requirements := [], delivery_files := [], timeline := [],
          status := "pending", created_at := now, updated_at := now,
          expected_delivery := none, started_at := none, delivered_at := none,
          completed_at := none, cancelled_at := none }
      let db1 : DB := { db with orders := db.orders ++ [order], nextId := db.nextId + 1 }
      (.ok (some oid), addTimeline db1 oid "order_created" (some c) now [])

/-- `confirm_order(order_id, client_id)`. -/
def confirm_order (db : DB) (now : Int) (order_id client_id : String) : Res × DB :=
  if isValidOid order_id = false then (.err "Invalid ObjectId for 'order_id'", db)
  else
    match findOrder db order_id with
    | none => (.err "Order not found", db)
    | some o =>
      if o.status ≠ "pending" then (.err "Order must be pending", db)
      else if o.client_id ≠ client_id then (.err "Not authorized", db)
      else
        let db1 := setOrder db order_id
          (fun x => { x with status := "accepted", updated_at := now })
        (.ok none, addTimeline db1 order_id "order_confirmed" (some client_id) now [])

/-- `complete_order(order_id, client_id)`: status to `completed`, one payment
insert, one gig-statistics `$inc`, one timeline entry. -/
def complete_order (db : DB) (now : Int) (order_id client_id : String) : Res × DB :=
  if isValidOid order_id = false then (.err "Invalid ObjectId for 'order_id'", db)
  else
    match findOrder db order_id with
    | none => (.err "Order must be delivered first", db)
    | some o =>
      if o.status ≠ "delivered" then (.err "Order must be delivered first", db)
      else if o.client_id ≠ client_id then (.err "Not authorized", db)
      else
        let amount : Rat := o.price * (o.quantity : Rat)
        let db1 := setOrder db order_id
          (fun x => { x with status := "completed", completed_at := some now, updated_at := now })
        let payment : Payment :=
          { id := db1.nextId, order_id := order_id, client_id := o.client_id,
            freelancer_id := o.freelancer_id, amount := amount,
            payment_method := "wallet", status := "released",
            created_at := now, updated_at := now }
        let db2 : DB := { db1 with payments := db1.payments ++ [payment], nextId := db1.nextId + 1 }
        let db3 : DB := { db2 with gigs :=
          (updateFirstBy (fun g => g.id == o.gig_id)
            (fun g => { g with total_orders := g.total_orders + 1,
                               total_earning := g.total_earning + amount }) db2.gigs) }
        (.ok none, addTimeline db3 order_id "order_completed" (some client_id) now [])

/-- `start_order(order_id, freelancer_id, expected_delivery)`. -/
def start_order (db : DB) (now : Int) (order_id freelancer_id : String)
    (expected_delivery : Option Int) : Res × DB :=
  if isValidOid order_id = false then (.err "Invalid ObjectId for 'order_id'", db)
  else
    match findOrder db order_id with
    | none => (.err "Order must be accepted first", db)
    | some o =>
      if o.status ≠ "accepted" then (.err "Order must be accepted first", db)
      else if o.freelancer_id ≠ freelancer_id then (.err "Not authorized", db)
      else
        let db1 := setOrder db order_id
          (fun x => { x with status := "in_progress", expected_delivery := expected_delivery,
                             started_at := some now, updated_at := now })
        (.ok none, addTimeline db1 order_id "order_started" (some freelancer_id) now [])

/-- One element of the `files` argument of `deliver_order`. -/
structure FileIn where
  file_url : String
  file_name : Option String := none
deriving DecidableEq

/-- The `delivered_files` list comprehension of `deliver_order`: each file
gets a generated `_id` and an `uploaded_at` stamp. -/
def deliveredFiles (nextId : Nat) (now : Int) (files : List FileIn) : List DeliveryFile :=
  files.enum.map (fun p =>
    { id := nextId + p.1, file_url := p.2.file_url,
      file_name := p.2.file_name, uploaded_at := now })

/-- `deliver_order(order_id, freelancer_id, files, message)`.  Note: the
`$set` writes `status` and `delivered_at` only — it does not touch
`updated_at`. -/
def deliver_order (db : DB) (now : Int) (order_id freelancer_id : String)
    (files : List FileIn) (message : Option String) : Res × DB :=
  if isValidOid order_id = false then (.err "Invalid ObjectId for 'order_id'", db)
  else
    match findOrder db order_id with
    | none => (.err "Order must be in progress", db)
    | some o =>
      if o.status ≠ "in_progress" then (.err "Order must be in progress", db)
      else if o.freelancer_id ≠ freelancer_id then (.err "Not authorized", db)
      else if files = [] then (.err "Files required", db)
      else
        let delivered := deliveredFiles db.nextId now files
        let db1 : DB := { db with nextId := db.nextId + files.length }
        let db2 := setOrder db1 order_id
          (fun x => { x with delivery_files := x.delivery_files ++ delivered,
                             status := "delivered", delivered_at := some now })
        (.ok none, addTimeline db2 order_id "order_delivered" (some freelancer_id) now
          [("message", message)])

/-- `request_revision(order_id, client_id, notes)`; the blank-reason check
comes before everything else. -/
def request_revision (db : DB) (now : Int) (order_id client_id notes : String) : Res × DB :=
  if notes = "" then (.err "Reason required", db)
  else if isValidOid order_id = false then (.err "Invalid ObjectId for 'order_id'", db)
  else
    match findOrder db order_id with
    | none => (.err "Order must be delivered", db)
    | some o =>
      if o.status ≠ "delivered" then (.err "Order must be delivered", db)
      else if o.client_id ≠ client_id then (.err "Not authorized", db)
      else
        let db1 := setOrder db order_id
          (fun x => { x with status := "revision_requested", updated_at := now })
        (.ok none, addTimeline db1 order_id "revision_requested" (some client_id) now
          [("reason", some notes)])

/-- `dispute_order(order_id, user_id, message)`.  The source performs no
existence, status or role check: it fires a blind `update_one` (a no-op when
no order matches) and reports success. -/
def dispute_order (db : DB) (now : Int) (order_id user_id message : String) : Res × DB :=
  if message = "" then (.err "Message required", db)
  else if isValidOid order_id = false then (.err "Invalid ObjectId for 'order_id'", db)
  else
    let db1 := setOrder db order_id
      (fun x => { x with status := "disputed", updated_at := now })
    (.ok none, addTimeline db1 order_id "order_disputed" (some user_id) now
      [("message", some message)])

/-- `cancel_order(order_id, user_id, reason)`.  Note: the `$set` writes
`status`, `cancelled_at` and `cancel_reason` only — not `updated_at`. -/
def cancel_order (db : DB) (now : Int) (order_id user_id : String)
    (reason : Option String) : Res × DB :=
  if isValidOid order_id = false then (.err "Invalid ObjectId for 'order_id'", db)
  else
    match findOrder db order_id with
    | none => (.err "Order not found", db)
    | some o =>
      if o.status = "completed" ∨ o.status = "cancelled" then
        (.err "Order cannot be cancelled", db)
      else if (o.status = "pending" ∨ o.status = "accepted") ∧ o.client_id ≠ user_id then
        (.err "Only client can cancel", db)
      else if o.status = "in_progress" ∧ o.freelancer_id ≠ user_id then
        (.err "Only freelancer can cancel", db)
      else
        let db1 := setOrder db order_id
          (fun x => { x with status := "cancelled", cancelled_at := some now,
                             cancel_reason := some reason })
        (.ok none, addTimeline db1 order_id "order_cancelled" (some user_id) now
          [("reason", reason)])

/-- The `data` dict of `extend_deadline`; `days` defaults to `0`
(`data.get("days", 0)`). -/
structure ExtendData where
  days : Option Int := none
deriving DecidableEq

/-- `extend_deadline(order_id, user_id, data)`.  No status or role check;
fails only for a malformed/missing order or a null `expected_delivery`. -/
def extend_deadline (db : DB) (now : Int) (order_id user_id : String)
    (data : ExtendData) : Res × DB :=
  if isValidOid order_id = false then (.err "Invalid ObjectId for 'order_id'", db)
  else
    let extra_days := data.days.getD 0
    match findOrder db order_id with
    | none => (.err "Order not found", db)
    | some o =>
      match o.expected_delivery with
      | none => (.err "No expected delivery to extend", db)
      | some d =>
        let new_deadline := d + extra_days * 86400
        let db1 := setOrder db order_id
          (fun x => { x with expected_delivery := some new_deadline, updated_at := now })
        (.ok none, addTimeline db1 order_id "deadline_extended" (some user_id) now
          [("new_deadline", some (toString new_deadline))])

/-- `resolve_dispute(order_id, data)`.  The source takes no admin id,
performs no status check, and unconditionally `$set`s status `resolved`
(never `completed` or `cancelled`), storing the payload in
`dispute_resolution`; no ledger or statistics side effect. -/
def resolve_dispute (db : DB) (now : Int) (order_id : String) (data : String) : Res × DB :=
  if isValidOid order_id = false then (.err "Invalid ObjectId for 'order_id'", db)
  else
    let db1 := setOrder db order_id
      (fun x => { x with status := "resolved", dispute_resolution := some data,
                         updated_at := now })
    (.ok none, addTimeline db1 order_id "dispute_resolved" none now
      [("resolution", some data)])

/-! ### Generic lemmas about `update_one` (`updateFirstBy`) -/

theorem find?_updateFirstBy {α : Type} (p : α → Bool) (f : α → α) (l : List α) (a : α)
    (h : l.find? p = some a) (hf : p (f a) = true) :
    (updateFirstBy p f l).find? p = some (f a) := by
  induction l with
  | nil => simp at h
  | cons b l ih =>
    by_cases hb : p b = true
    · rw [List.find?_cons_of_pos _ hb] at h
      cases h
      simp [updateFirstBy, hb, List.find?_cons_of_pos _ hf]
    · rw [List.find?_cons_of_neg _ (by simpa using hb)] at h
      simp [updateFirstBy, hb, List.find?_cons_of_neg _ (by simpa using hb), ih h]

theorem updateFirstBy_of_find?_none {α : Type} (p : α → Bool) (f : α → α) (l : List α)
    (h : l.find? p = none) : updateFirstBy p f l = l := by
  induction l with
  | nil => rfl
  | cons b l ih =>
    by_cases hb : p b = true
    · rw [List.find?_cons_of_pos _ hb] at h
      cases h
    · rw [List.find?_cons_of_neg _ (by simpa using hb)] at h
      simp [updateFirstBy, hb, ih h]

theorem updateFirstBy_append_singleton {α : Type} (p : α → Bool) (f : α → α) (l : List α)
    (a : α) (hl : ∀ x ∈ l, p x = false) (ha : p a = true) :
    updateFirstBy p f (l ++ [a]) = l ++ [f a] := by
  induction l with
  | nil => simp [updateFirstBy, ha]
  | cons b l ih =>
    have hb := hl b (List.mem_cons_self b l)
    simp only [List.cons_append, updateFirstBy, hb, Bool.false_eq_true, if_false,
      List.cons.injEq, true_and]
    exact ih (fun x hx => hl x (List.mem_cons_of_mem b hx))

/-! ### Reduction equations for the engine operations under explicit
preconditions.  Each spells out the exact result and post-state the source
produces on that path. -/

theorem complete_order_eq_success (db : DB) (now : Int) (oid cid : String) (o : Order)
    (hv : isValidOid oid = true) (hf : findOrder db oid = some o)
    (hs : o.status = "delivered") (hc : o.client_id = cid) :
    complete_order db now oid cid =
      (Res.ok none,
       { orders := updateFirstBy (fun x => x.id == oid)
           (fun x => { x with timeline := x.timeline ++
               [{ id := db.nextId + 1, action := "order_completed", user_id := some cid,
                  timestamp := now, extra := [] }] })
           (updateFirstBy (fun x => x.id == oid)
             (fun x => { x with status := "completed", completed_at := some now,
                                updated_at := now }) db.orders),
         payments := db.payments ++
           [{ id := db.nextId, order_id := oid, client_id := o.client_id,
              freelancer_id := o.freelancer_id, amount := o.price * (o.quantity : Rat),
              payment_method := "wallet", status := "released",
              created_at := now, updated_at := now }],
         gigs := updateFirstBy (fun g => g.id == o.gig_id)
           (fun g => { g with total_orders := g.total_orders + 1,
                              total_earning := g.total_earning + o.price * (o.quantity : Rat) })
           db.gigs,
         nextId := db.nextId + 2 }) := by
  simp only [complete_order, hv, hf, hs, hc, Bool.true_eq_false, if_false,
    setOrder, addTimeline, ne_eq, not_true_eq_false, ite_false]


theorem confirm_order_eq_success (db : DB) (now : Int) (oid cid : String) (o : Order)
    (hv : isValidOid oid = true) (hf : findOrder db oid = some o)
    (hs : o.status = "pending") (hc : o.client_id = cid) :
    confirm_order db now oid cid =
      (Res.ok none,
       { orders := updateFirstBy (fun x => x.id == oid)
           (fun x => { x with timeline := x.timeline ++
               [{ id := db.nextId, action := "order_confirmed", user_id := some cid,
                  timestamp := now, extra := [] }] })
           (updateFirstBy (fun x => x.id == oid)
             (fun x => { x with status := "accepted", updated_at := now }) db.orders),
         payments := db.payments, gigs := db.gigs, nextId := db.nextId + 1 }) := by
  simp only [confirm_order, hv, hf, hs, hc, Bool.true_eq_false, if_false,
    setOrder, addTimeline, ne_eq, not_true_eq_false, ite_false]

theorem start_order_eq_success (db : DB) (now : Int) (oid fid : String) (exp : Option Int)
    (o : Order) (hv : isValidOid oid = true) (hf : findOrder db oid = some o)
    (hs : o.status = "accepted") (hfr : o.freelancer_id = fid) :
    start_order db now oid fid exp =
      (Res.ok none,
       { orders := updateFirstBy (fun x => x.id == oid)
           (fun x => { x with timeline := x.timeline ++
               [{ id := db.nextId, action := "order_started", user_id := some fid,
                  timestamp := now, extra := [] }] })
           (updateFirstBy (fun x => x.id == oid)
             (fun x => { x with status := "in_progress", expected_delivery := exp,
                                started_at := some now, updated_at := now }) db.orders),
         payments := db.payments, gigs := db.gigs, nextId := db.nextId + 1 }) := by
  simp only [start_order, hv, hf, hs, hfr, Bool.true_eq_false, if_false,
    setOrder, addTimeline, ne_eq, not_true_eq_false, ite_false]

theorem deliver_order_eq_success (db : DB) (now : Int) (oid fid : String)
    (files : List FileIn) (msg : Option String) (o : Order)
    (hv : isValidOid oid = true) (hf : findOrder db oid = some o)
    (hs : o.status = "in_progress") (hfr : o.freelancer_id = fid) (hne : files ≠ []) :
    deliver_order db now oid fid files msg =
      (Res.ok none,
       { orders := updateFirstBy (fun x => x.id == oid)
           (fun x => { x with timeline := x.timeline ++
               [{ id := db.nextId + files.length, action := "order_delivered",
                  user_id := some fid, timestamp := now, extra := [("message", msg)] }] })
           (updateFirstBy (fun x => x.id == oid)
             (fun x => { x with
               delivery_files := x.delivery_files ++ deliveredFiles db.nextId now files,
               status := "delivered", delivered_at := some now }) db.orders),
         payments := db.payments, gigs := db.gigs,
         nextId := db.nextId + files.length + 1 }) := by
  simp only [deliver_order, hv, hf, hs, hfr, hne, Bool.true_eq_false, if_false,
    setOrder, addTimeline, ne_eq, not_true_eq_false, ite_false, not_false_eq_true,
    ite_true]

theorem request_revision_eq_success (db : DB) (now : Int) (oid cid notes : String)
    (o : Order) (hn : notes ≠ "") (hv : isValidOid oid = true)
    (hf : findOrder db oid = some o) (hs : o.status = "delivered")
    (hc : o.client_id = cid) :
    request_revision db now oid cid notes =
      (Res.ok none,
       { orders := updateFirstBy (fun x => x.id == oid)
           (fun x => { x with timeline := x.timeline ++
               [{ id := db.nextId, action := "revision_requested", user_id := some cid,
                  timestamp := now, extra := [("reason", some notes)] }] })
           (updateFirstBy (fun x => x.id == oid)
             (fun x => { x with status := "revision_requested", updated_at := now }) db.orders),
         payments := db.payments, gigs := db.gigs, nextId := db.nextId + 1 }) := by
  simp only [request_revision, hn, hv, hf, hs, hc, Bool.true_eq_false, if_false,
    setOrder, addTimeline, ne_eq, not_true_eq_false, ite_false, not_false_eq_true,
    ite_true]

theorem dispute_order_eq (db : DB) (now : Int) (oid uid msg : String)
    (hm : msg ≠ "") (hv : isValidOid oid = true) :
    dispute_order db now oid uid msg =
      (Res.ok none,
       { orders := updateFirstBy (fun x => x.id == oid)
           (fun x => { x with timeline := x.timeline ++
               [{ id := db.nextId, action := "order_disputed", user_id := some uid,
                  timestamp := now, extra := [("message", some msg)] }] })
           (updateFirstBy (fun x => x.id == oid)
             (fun x => { x with status := "disputed", updated_at := now }) db.orders),
         payments := db.payments, gigs := db.gigs, nextId := db.nextId + 1 }) := by
  simp only [dispute_order, hm, hv, Bool.true_eq_false, if_false,
    setOrder, addTimeline, ne_eq, not_true_eq_false, ite_false, not_false_eq_true,
    ite_true]

theorem resolve_dispute_eq (db : DB) (now : Int) (oid data : String)
    (hv : isValidOid oid = true) :
    resolve_dispute db now oid data =
      (Res.ok none,
       { orders := updateFirstBy (fun x => x.id == oid)
           (fun x => { x with timeline := x.timeline ++
               [{ id := db.nextId, action := "dispute_resolved", user_id := none,
                  timestamp := now, extra := [("resolution", some data)] }] })
           (updateFirstBy (fun x => x.id == oid)
             (fun x => { x with status := "resolved", dispute_resolution := some data,
                                updated_at := now }) db.orders),
         payments := db.payments, gigs := db.gigs, nextId := db.nextId + 1 }) := by
  simp only [resolve_dispute, hv, Bool.true_eq_false, if_false,
    setOrder, addTimeline, ite_false]

theorem cancel_order_eq_client (db : DB) (now : Int) (oid uid : String)
    (reason : Option String) (o : Order) (hv : isValidOid oid = true)
    (hf : findOrder db oid = some o)
    (hs : o.status = "pending" ∨ o.status = "accepted") (hc : o.client_id = uid) :
    cancel_order db now oid uid reason =
      (Res.ok none,
       { orders := updateFirstBy (fun x => x.id == oid)
           (fun x => { x with timeline := x.timeline ++
               [{ id := db.nextId, action := "order_cancelled", user_id := some uid,
                  timestamp := now, extra := [("reason", reason)] }] })
           (updateFirstBy (fun x => x.id == oid)
             (fun x => { x with status := "cancelled", cancelled_at := some now,
                                cancel_reason := some reason }) db.orders),
         payments := db.payments, gigs := db.gigs, nextId := db.nextId + 1 }) := by
  rcases hs with hs | hs <;>
    simp [cancel_order, hv, hf, hs, hc, setOrder, addTimeline]

theorem cancel_order_eq_freelancer (db : DB) (now : Int) (oid uid : String)
    (reason : Option String) (o : Order) (hv : isValidOid oid = true)
    (hf : findOrder db oid = some o)
    (hs : o.status = "in_progress") (hfr : o.freelancer_id = uid) :
    cancel_order db now oid uid reason =
      (Res.ok none,
       { orders := updateFirstBy (fun x => x.id == oid)
           (fun x => { x with timeline := x.timeline ++
               [{ id := db.nextId, action := "order_cancelled", user_id := some uid,
                  timestamp := now, extra := [("reason", reason)] }] })
           (updateFirstBy (fun x => x.id == oid)
             (fun x => { x with status := "cancelled", cancelled_at := some now,
                                cancel_reason := some reason }) db.orders),
         payments := db.payments, gigs := db.gigs, nextId := db.nextId + 1 }) := by
  simp [cancel_order, hv, hf, hs, hfr, setOrder, addTimeline]

theorem extend_deadline_eq_success (db : DB) (now : Int) (oid uid : String)
    (data : ExtendData) (o : Order) (d : Int) (hv : isValidOid oid = true)
    (hf : findOrder db oid = some o) (hd : o.expected_delivery = some d) :
    extend_deadline db now oid uid data =
      (Res.ok none,
       { orders := updateFirstBy (fun x => x.id == oid)
           (fun x => { x with timeline := x.timeline ++
               [{ id := db.nextId, action := "deadline_extended", user_id := some uid,
                  timestamp := now,
                  extra := [("new_deadline", some (toString (d + data.days.getD 0 * 86400)))] }] })
           (updateFirstBy (fun x => x.id == oid)
             (fun x => { x with expected_delivery := some (d + data.days.getD 0 * 86400),
                                updated_at := now }) db.orders),
         payments := db.payments, gigs := db.gigs, nextId := db.nextId + 1 }) := by
  simp only [extend_deadline, hv, hf, hd, Bool.true_eq_false, if_false,
    setOrder, addTimeline, ite_false]

theorem create_order_eq_success (db : DB) (now : Int) (data : CreateData)
    (g c f : String) (p : Rat) (q : Int)
    (hg : data.gig_id = some g) (hgne : g ≠ "") (hgv : isValidOid g = true)
    (hc : data.client_id = some c) (hcne : c ≠ "") (hcv : isValidOid c = true)
    (hf : data.freelancer_id = some f) (hfne : f ≠ "") (hfv : isValidOid f = true)
    (hp : data.price = some p) (hpne : p ≠ 0)
    (hq : data.quantity = some q) (hqne : q ≠ 0) :
    create_order db now data =
      (Res.ok (some (freshOid db.nextId)),
       { orders := updateFirstBy (fun x => x.id == freshOid db.nextId)
           (fun x => { x with timeline := x.timeline ++
               [{ id := db.nextId + 1, action := "order_created", user_id := some c,
                  timestamp := now, extra := [] }] })
           (db.orders ++
             [{ id := freshOid db.nextId, gig_id := g, client_id := c, freelancer_id := f,
                price := p, quantity := q, requirements := [], delivery_files := [],
                timeline := [], status := "pending", created_at := now, updated_at := now,
                expected_delivery := none, started_at := none, delivered_at := none,
                completed_at := none, cancelled_at := none }]),
         payments := db.payments, gigs := db.gigs, nextId := db.nextId + 2 }) := by
  simp [create_order, hg, hgne, hgv, hc, hcne, hcv, hf, hfne, hfv, hp, hpne, hq, hqne,
    setOrder, addTimeline]

/-! ### Failure frame: whenever an operation reports an error, the database
is left exactly as it was. -/

theorem create_order_fail_frame (db : DB) (now : Int) (data : CreateData) :
    ((create_order db now data).1).isErr = true → (create_order db now data).2 = db := by
  simp only [create_order]
  repeat' split
  all_goals intro h
  all_goals first | rfl | (simp [Res.isErr] at h)

theorem confirm_order_fail_frame (db : DB) (now : Int) (oid cid : String) :
    ((confirm_order db now oid cid).1).isErr = true → (confirm_order db now oid cid).2 = db := by
  simp only [confirm_order]
  repeat' split
  all_goals intro h
  all_goals first | rfl | (simp [Res.isErr] at h)

theorem start_order_fail_frame (db : DB) (now : Int) (oid fid : String) (exp : Option Int) :
    ((start_order db now oid fid exp).1).isErr = true → (start_order db now oid fid exp).2 = db := by
  simp only [start_order]
  repeat' split
  all_goals intro h
  all_goals first | rfl | (simp [Res.isErr] at h)

theorem deliver_order_fail_frame (db : DB) (now : Int) (oid fid : String)
    (files : List FileIn) (msg : Option String) :
    ((deliver_order db now oid fid files msg).1).isErr = true →
      (deliver_order db now oid fid files msg).2 = db := by
  simp only [deliver_order]
  repeat' split
  all_goals intro h
  all_goals first | rfl | (simp [Res.isErr] at h)

theorem request_revision_fail_frame (db : DB) (now : Int) (oid cid notes : String) :
    ((request_revision db now oid cid notes).1).isErr = true →
      (request_revision db now oid cid notes).2 = db := by
  simp only [request_revision]
  repeat' split
  all_goals intro h
  all_goals first | rfl | (simp [Res.isErr] at h)

theorem complete_order_fail_frame (db : DB) (now : Int) (oid cid : String) :
    ((complete_order db now oid cid).1).isErr = true → (complete_order db now oid cid).2 = db := by
  simp only [complete_order]
  repeat' split
  all_goals intro h
  all_goals first | rfl | (simp [Res.isErr] at h)

theorem cancel_order_fail_frame (db : DB) (now : Int) (oid uid : String) (reason : Option String) :
    ((cancel_order db now oid uid reason).1).isErr = true → (cancel_order db now oid uid reason).2 = db := by
  simp only [cancel_order]
  repeat' split
  all_goals intro h
  all_goals first | rfl | (simp [Res.isErr] at h)

theorem dispute_order_fail_frame (db : DB) (now : Int) (oid uid msg : String) :
    ((dispute_order db now oid uid msg).1).isErr = true → (dispute_order db now oid uid msg).2 = db := by
  simp only [dispute_order]
  repeat' split
  all_goals intro h
  all_goals first | rfl | (simp [Res.isErr] at h)

theorem extend_deadline_fail_frame (db : DB) (now : Int) (oid uid : String) (data : ExtendData) :
    ((extend_deadline db now oid uid data).1).isErr = true →
      (extend_deadline db now oid uid data).2 = db := by
  simp only [extend_deadline]
  repeat' split
  all_goals intro h
  all_goals first | rfl | (simp [Res.isErr] at h)


/-! ### Concrete fixtures used by witnesses and counterexamples -/

def oidA : String := "aaaaaaaaaaaaaaaaaaaaaaaa"

def oidC : String := "cccccccccccccccccccccccc"

def oidF : String := "ffffffffffffffffffffffff"

def oidG : String := "0123456789abcdef01234567"

/-- A sample order (client `oidC`, freelancer `oidF`, gig `oidG`,
price 100, quantity 2) in the given status. -/
def mkOrder (status : String) : Order :=
  { id := oidA, gig_id := oidG, client_id := oidC, freelancer_id := oidF,
    price := 100, quantity := 2, requirements := [], delivery_files := [],
    timeline := [], status := status, created_at := 0, updated_at := 0,
    expected_delivery := none, started_at := none, delivered_at := none,
    completed_at := none, cancelled_at := none }

/-- A database holding one sample order and its gig. -/
def mkDB (status : String) : DB :=
  { orders := [mkOrder status],
    payments := [],
    gigs := [{ id := oidG, total_orders := 3, total_earning := 500 }],
    nextId := 10 }

/-- An empty database. -/
def emptyDB : DB := { orders := [], payments := [], gigs := [], nextId := 0 }

/-- C1: completing a delivered order as its own client succeeds, marks the
order `completed` with `completed_at` set, inserts exactly one ledger entry
for that order with amount = price × quantity, method `wallet` and status
`released`, and increments the gig's statistics by exactly
total_orders += 1 and total_earning += amount. -/
theorem C1_complete_delivered (db : DB) (now : Int) (oid cid : String) (o : Order)
    (hv : isValidOid oid = true) (hf : findOrder db oid = some o)
    (hs : o.status = "delivered") (hc : o.client_id = cid) :
    (complete_order db now oid cid).1 = Res.ok none ∧
    (∃ o', findOrder (complete_order db now oid cid).2 oid = some o' ∧
       o'.status = "completed" ∧ o'.completed_at = some now) ∧
    (complete_order db now oid cid).2.payments = db.payments ++
      [{ id := db.nextId, order_id := oid, client_id := o.client_id,
         freelancer_id := o.freelancer_id, amount := o.price * (o.quantity : Rat),
         payment_method := "wallet", status := "released",
         created_at := now, updated_at := now }] ∧
    ∀ g, db.gigs.find? (fun x => x.id == o.gig_id) = some g →
      (complete_order db now oid cid).2.gigs.find? (fun x => x.id == o.gig_id) =
        some { g with total_orders := g.total_orders + 1,
                      total_earning := g.total_earning + o.price * (o.quantity : Rat) } := by
  have hf' : db.orders.find? (fun x => x.id == oid) = some o := hf
  have hp := List.find?_some hf'
  rw [complete_order_eq_success db now oid cid o hv hf hs hc]
  have h1 := find?_updateFirstBy (fun x : Order => x.id == oid)
    (fun x : Order => { x with status := "completed", completed_at := some now, updated_at := now })
    db.orders o hf' hp
  have h2 := find?_updateFirstBy (fun x : Order => x.id == oid)
    (fun x : Order => { x with timeline := x.timeline ++
        [{ id := db.nextId + 1, action := "order_completed", user_id := some cid,
           timestamp := now, extra := [] }] })
    _ _ h1 hp
  refine ⟨rfl, ⟨_, h2, rfl, rfl⟩, rfl, ?_⟩
  intro g hg
  have hpg := List.find?_some hg
  exact find?_updateFirstBy (fun x : Gig => x.id == o.gig_id)
    (fun x : Gig =>
      { x with
        total_orders := x.total_orders + 1,
        total_earning := x.total_earning + o.price * (o.quantity : Rat) })
    db.gigs g hg hpg

theorem C1_complete_delivered_witness :
    (complete_order (mkDB "delivered") 5 oidA oidC).1 = Res.ok none :=
  (C1_complete_delivered (mkDB "delivered") 5 oidA oidC (mkOrder "delivered")
    (by decide) rfl rfl rfl).1

/-- C2: invoking complete on an already-completed order fails with the
"must be delivered" state error and leaves the database — payments and gig
statistics included — exactly unchanged, so repeated completions can never
produce a duplicate ledger entry. -/
theorem C2_complete_idempotent_failure (db : DB) (now : Int) (oid cid : String) (o : Order)
    (hv : isValidOid oid = true) (hf : findOrder db oid = some o)
    (hs : o.status = "completed") :
    (complete_order db now oid cid).1 = Res.err "Order must be delivered first" ∧
    (complete_order db now oid cid).2 = db := by
  simp [complete_order, hv, hf, hs]

theorem C2_complete_idempotent_failure_witness :
    (complete_order (mkDB "completed") 5 oidA oidC).1 = Res.err "Order must be delivered first" ∧
    (complete_order (mkDB "completed") 5 oidA oidC).2 = mkDB "completed" :=
  C2_complete_idempotent_failure (mkDB "completed") 5 oidA oidC (mkOrder "completed")
    (by decide) rfl rfl


/-- C3 counterexample: an order in status `pending` — neither `in_progress`
nor `delivered` — is disputed successfully, a transition outside the §4.1
state machine, so the claimed status-check of `dispute` does not exist. -/
theorem C3_counterexample :
    (dispute_order (mkDB "pending") 5 oidA oidC "problem").1 = Res.ok none ∧
    (findOrder (dispute_order (mkDB "pending") 5 oidA oidC "problem").2 oidA).map
        Order.status = some "disputed" := by decide

/-- C3 (amended): `dispute_order` performs no status, role or existence
check at all: for any well-formed order id and non-empty message it reports
success, sets the matching order's status to `disputed` from any prior
status, and still reports success when no such order exists (leaving the
collection unchanged); the stored status is therefore not confined to the
edges of the §4.1 graph. -/
theorem C3_dispute_unguarded (db : DB) (now : Int) (oid uid msg : String)
    (hv : isValidOid oid = true) (hm : msg ≠ "") :
    (dispute_order db now oid uid msg).1 = Res.ok none ∧
    (∀ o, findOrder db oid = some o →
       ∃ o', findOrder (dispute_order db now oid uid msg).2 oid = some o' ∧
         o'.status = "disputed" ∧ o'.updated_at = now) ∧
    (findOrder db oid = none →
       (dispute_order db now oid uid msg).2.orders = db.orders) := by
  rw [dispute_order_eq db now oid uid msg hm hv]
  refine ⟨rfl, ?_, ?_⟩
  · intro o hf
    have hf' : db.orders.find? (fun x => x.id == oid) = some o := hf
    have hp := List.find?_some hf'
    have h1 := find?_updateFirstBy (fun x : Order => x.id == oid)
      (fun x : Order => { x with status := "disputed", updated_at := now })
      db.orders o hf' hp
    have h2 := find?_updateFirstBy (fun x : Order => x.id == oid)
      (fun x : Order => { x with timeline := x.timeline ++
          [{ id := db.nextId, action := "order_disputed", user_id := some uid,
             timestamp := now, extra := [("message", some msg)] }] })
      _ _ h1 hp
    exact ⟨_, h2, rfl, rfl⟩
  · intro hn
    have hn' : db.orders.find? (fun x => x.id == oid) = none := hn
    show updateFirstBy _ _ (updateFirstBy _ _ db.orders) = db.orders
    rw [updateFirstBy_of_find?_none _ _ _ hn', updateFirstBy_of_find?_none _ _ _ hn']

theorem C3_dispute_unguarded_witness :
    (dispute_order (mkDB "accepted") 7 oidA oidF "issue").1 = Res.ok none :=
  (C3_dispute_unguarded (mkDB "accepted") 7 oidA oidF "issue" (by decide) (by decide)).1

/-- C4 counterexample: resolving a dispute whose payload directs completion
leaves the order in status `resolved` (never `completed`), inserts no ledger
entry, and `resolve_dispute` even succeeds on an order that is not
`disputed` at all. -/
theorem C4_counterexample :
    (resolve_dispute (mkDB "disputed") 5 oidA "completed").1 = Res.ok none ∧
    (findOrder (resolve_dispute (mkDB "disputed") 5 oidA "completed").2 oidA).map
        Order.status = some "resolved" ∧
    (resolve_dispute (mkDB "disputed") 5 oidA "completed").2.payments = [] ∧
    (resolve_dispute (mkDB "pending") 5 oidA "completed").1 = Res.ok none := by decide

/-- C4 (amended): `resolve_dispute(order_id, data)` takes no admin identity
and performs no status check: from any current status it reports success,
unconditionally sets the matching order's status to `resolved` (never
`completed` or `cancelled`, whatever the payload directs), stores the payload
in `dispute_resolution`, and triggers no ledger insertion and no
gig-statistics increment. -/
theorem C4_resolve_unconditional (db : DB) (now : Int) (oid data : String)
    (hv : isValidOid oid = true) :
    (resolve_dispute db now oid data).1 = Res.ok none ∧
    (resolve_dispute db now oid data).2.payments = db.payments ∧
    (resolve_dispute db now oid data).2.gigs = db.gigs ∧
    ∀ o, findOrder db oid = some o →
      ∃ o', findOrder (resolve_dispute db now oid data).2 oid = some o' ∧
        o'.status = "resolved" ∧ o'.dispute_resolution = some data ∧
        o'.updated_at = now := by
  rw [resolve_dispute_eq db now oid data hv]
  refine ⟨rfl, rfl, rfl, ?_⟩
  intro o hf
  have hf' : db.orders.find? (fun x => x.id == oid) = some o := hf
  have hp := List.find?_some hf'
  have h1 := find?_updateFirstBy (fun x : Order => x.id == oid)
    (fun x : Order =>
      { x with status := "resolved", dispute_resolution := some data, updated_at := now })
    db.orders o hf' hp
  have h2 := find?_updateFirstBy (fun x : Order => x.id == oid)
    (fun x : Order => { x with timeline := x.timeline ++
        [{ id := db.nextId, action := "dispute_resolved", user_id := none,
           timestamp := now, extra := [("resolution", some data)] }] })
    _ _ h1 hp
  exact ⟨_, h2, rfl, rfl, rfl⟩

theorem C4_resolve_unconditional_witness :
    (resolve_dispute (mkDB "disputed") 9 oidA "cancelled").1 = Res.ok none :=
  (C4_resolve_unconditional (mkDB "disputed") 9 oidA "cancelled" (by decide)).1


/-- C5 counterexample: an order in `revision_requested`, delivered again by
its own freelancer with a non-empty file list, is rejected — the source only
accepts deliveries from `in_progress`. -/
theorem C5_counterexample :
    (deliver_order (mkDB "revision_requested") 5 oidA oidF
        [{ file_url := "u", file_name := none }] none).1 =
      Res.err "Order must be in progress" := by decide

/-- C5 (amended): deliver succeeds exactly when the order exists, its status
is `in_progress` (an order in `revision_requested` cannot be delivered), the
caller is the order's freelancer and the file list is non-empty; on success
each file is appended (with generated id and uploaded_at) to delivery_files,
delivered_at is set and the status becomes `delivered`. -/
theorem C5_deliver_characterization (db : DB) (now : Int) (oid fid : String)
    (files : List FileIn) (msg : Option String) :
    ((deliver_order db now oid fid files msg).1 = Res.ok none ↔
      isValidOid oid = true ∧ ∃ o, findOrder db oid = some o ∧
        o.status = "in_progress" ∧ o.freelancer_id = fid ∧ files ≠ []) ∧
    (∀ o, isValidOid oid = true → findOrder db oid = some o →
      o.status = "in_progress" → o.freelancer_id = fid → files ≠ [] →
      ∃ o', findOrder (deliver_order db now oid fid files msg).2 oid = some o' ∧
        o'.status = "delivered" ∧ o'.delivered_at = some now ∧
        o'.delivery_files = o.delivery_files ++ deliveredFiles db.nextId now files) := by
  constructor
  · constructor
    · intro h1
      unfold deliver_order at h1
      split at h1
      · simp at h1
      · next hvalid =>
        split at h1
        · simp at h1
        · next o hfind =>
          split at h1
          · simp at h1
          · next hst =>
            split at h1
            · simp at h1
            · next hfr =>
              split at h1
              · simp at h1
              · next hfe =>
                refine ⟨by simpa using hvalid, o, hfind, by simpa using hst,
                  by simpa using hfr, hfe⟩
    · rintro ⟨hv, o, hf, hs, hfr, hfe⟩
      rw [deliver_order_eq_success db now oid fid files msg o hv hf hs hfr hfe]
  · intro o hv hf hs hfr hfe
    rw [deliver_order_eq_success db now oid fid files msg o hv hf hs hfr hfe]
    have hf' : db.orders.find? (fun x => x.id == oid) = some o := hf
    have hp := List.find?_some hf'
    have h1 := find?_updateFirstBy (fun x : Order => x.id == oid)
      (fun x : Order =>
        { x with
          delivery_files := x.delivery_files ++ deliveredFiles db.nextId now files,
          status := "delivered", delivered_at := some now })
      db.orders o hf' hp
    have h2 := find?_updateFirstBy (fun x : Order => x.id == oid)
      (fun x : Order => { x with timeline := x.timeline ++
          [{ id := db.nextId + files.length, action := "order_delivered",
             user_id := some fid, timestamp := now, extra := [("message", msg)] }] })
      _ _ h1 hp
    exact ⟨_, h2, rfl, rfl, rfl⟩

theorem C5_deliver_characterization_witness :
    (deliver_order (mkDB "in_progress") 5 oidA oidF
        [{ file_url := "u", file_name := none }] none).1 = Res.ok none :=
  (C5_deliver_characterization (mkDB "in_progress") 5 oidA oidF
      [{ file_url := "u", file_name := none }] none).1.mpr
    ⟨by decide, mkOrder "in_progress", rfl, rfl, rfl, by decide⟩


/-- C6: cancellation role rules.  A cancel by the order's client while
`in_progress` fails with the freelancer-only authorization error, and a
cancel by the order's freelancer while `pending` or `accepted` fails with the
client-only authorization error; the client may cancel a `pending`/`accepted`
order and the freelancer an `in_progress` order, in which case the status
becomes `cancelled`, `cancelled_at` is set and the reason is stored; a
`completed` or `cancelled` order cannot be cancelled at all. -/
theorem C6_cancel_role_rules (db : DB) (now : Int) (oid uid : String)
    (reason : Option String) (o : Order)
    (hv : isValidOid oid = true) (hf : findOrder db oid = some o) :
    (o.status = "in_progress" → uid = o.client_id → o.freelancer_id ≠ o.client_id →
       (cancel_order db now oid uid reason).1 = Res.err "Only freelancer can cancel") ∧
    ((o.status = "pending" ∨ o.status = "accepted") → uid = o.freelancer_id →
       o.client_id ≠ o.freelancer_id →
       (cancel_order db now oid uid reason).1 = Res.err "Only client can cancel") ∧
    ((o.status = "pending" ∨ o.status = "accepted") → uid = o.client_id →
       (cancel_order db now oid uid reason).1 = Res.ok none ∧
       ∃ o', findOrder (cancel_order db now oid uid reason).2 oid = some o' ∧
         o'.status = "cancelled" ∧ o'.cancelled_at = some now ∧
         o'.cancel_reason = some reason) ∧
    (o.status = "in_progress" → uid = o.freelancer_id →
       (cancel_order db now oid uid reason).1 = Res.ok none ∧
       ∃ o', findOrder (cancel_order db now oid uid reason).2 oid = some o' ∧
         o'.status = "cancelled" ∧ o'.cancelled_at = some now ∧
         o'.cancel_reason = some reason) ∧
    ((o.status = "completed" ∨ o.status = "cancelled") →
       (cancel_order db now oid uid reason).1 = Res.err "Order cannot be cancelled") := by
  have hf' : db.orders.find? (fun x => x.id == oid) = some o := hf
  have hp := List.find?_some hf'
  have h1 := find?_updateFirstBy (fun x : Order => x.id == oid)
    (fun x : Order =>
      { x with status := "cancelled", cancelled_at := some now,
               cancel_reason := some reason })
    db.orders o hf' hp
  have h2 := find?_updateFirstBy (fun x : Order => x.id == oid)
    (fun x : Order => { x with timeline := x.timeline ++
        [{ id := db.nextId, action := "order_cancelled", user_id := some uid,
           timestamp := now, extra := [("reason", reason)] }] })
    _ _ h1 hp
  refine ⟨?_, ?_, ?_, ?_, ?_⟩
  · intro hs hu hne
    simp [cancel_order, hv, hf, hs, hu, hne]
  · intro hs hu hne
    rcases hs with hs | hs <;> simp [cancel_order, hv, hf, hs, hu, hne]
  · intro hs hu
    rw [cancel_order_eq_client db now oid uid reason o hv hf hs hu.symm]
    exact ⟨rfl, _, h2, rfl, rfl, rfl⟩
  · intro hs hu
    rw [cancel_order_eq_freelancer db now oid uid reason o hv hf hs hu.symm]
    exact ⟨rfl, _, h2, rfl, rfl, rfl⟩
  · intro hs
    rcases hs with hs | hs <;> simp [cancel_order, hv, hf, hs]

theorem C6_cancel_role_rules_witness :
    (cancel_order (mkDB "in_progress") 5 oidA oidC (some "late")).1 =
        Res.err "Only freelancer can cancel" ∧
    (cancel_order (mkDB "pending") 5 oidA oidF (some "r")).1 =
        Res.err "Only client can cancel" ∧
    (cancel_order (mkDB "pending") 5 oidA oidC (some "r")).1 = Res.ok none ∧
    (cancel_order (mkDB "in_progress") 5 oidA oidF (some "r")).1 = Res.ok none ∧
    (cancel_order (mkDB "completed") 5 oidA oidC none).1 =
        Res.err "Order cannot be cancelled" :=
  ⟨(C6_cancel_role_rules (mkDB "in_progress") 5 oidA oidC (some "late")
      (mkOrder "in_progress") (by decide) rfl).1 rfl rfl (by decide),
   (C6_cancel_role_rules (mkDB "pending") 5 oidA oidF (some "r")
      (mkOrder "pending") (by decide) rfl).2.1 (Or.inl rfl) rfl (by decide),
   ((C6_cancel_role_rules (mkDB "pending") 5 oidA oidC (some "r")
      (mkOrder "pending") (by decide) rfl).2.2.1 (Or.inl rfl) rfl).1,
   ((C6_cancel_role_rules (mkDB "in_progress") 5 oidA oidF (some "r")
      (mkOrder "in_progress") (by decide) rfl).2.2.2.1 rfl rfl).1,
   (C6_cancel_role_rules (mkDB "completed") 5 oidA oidC none
      (mkOrder "completed") (by decide) rfl).2.2.2.2 (Or.inl rfl)⟩


/-- A well-formed `create_order` input. -/
def createData0 : CreateData :=
  { gig_id := some oidG, client_id := some oidC, freelancer_id := some oidF,
    price := some 100, quantity := some 2 }

/-- C7 counterexample: the required-field check tests Python truthiness, so a
zero price — allowed by the claimed `price ≥ 0` rule — is rejected as a
missing field, while a negative price and a negative quantity — forbidden by
the claimed bounds — are accepted. -/
theorem C7_counterexample :
    (create_order emptyDB 0 { createData0 with price := some 0 }).1 =
        Res.err "Missing field 'price'" ∧
    (create_order emptyDB 0 { createData0 with price := some (-10) }).1 =
        Res.ok (some (freshOid 0)) ∧
    (create_order emptyDB 0 { createData0 with quantity := some (-1) }).1 =
        Res.ok (some (freshOid 0)) := by decide

/-- C7 (amended): create_order succeeds exactly when the five required
fields are present and non-falsy (ids non-empty, price ≠ 0, quantity ≠ 0 —
no lower-bound checks, so negative price or quantity is accepted and zero is
rejected as missing) and the three ids are well-formed; on success the new
order is appended with status `pending`, empty requirements and
delivery_files, a single `order_created` timeline entry, and all workflow
timestamps null. -/
theorem C7_create_characterization (db : DB) (now : Int) (data : CreateData) :
    ((create_order db now data).1.isErr = false ↔
      (∃ g, data.gig_id = some g ∧ g ≠ "" ∧ isValidOid g = true) ∧
      (∃ c, data.client_id = some c ∧ c ≠ "" ∧ isValidOid c = true) ∧
      (∃ f, data.freelancer_id = some f ∧ f ≠ "" ∧ isValidOid f = true) ∧
      (∃ p, data.price = some p ∧ p ≠ 0) ∧
      (∃ q, data.quantity = some q ∧ q ≠ 0)) ∧
    (∀ g c f p q,
      data.gig_id = some g → isValidOid g = true →
      data.client_id = some c → isValidOid c = true →
      data.freelancer_id = some f → isValidOid f = true →
      data.price = some p → p ≠ 0 →
      data.quantity = some q → q ≠ 0 →
      (∀ x ∈ db.orders, (x.id == freshOid db.nextId) = false) →
      (create_order db now data).1 = Res.ok (some (freshOid db.nextId)) ∧
      (create_order db now data).2.orders = db.orders ++
        [{ id := freshOid db.nextId, gig_id := g, client_id := c, freelancer_id := f,
           price := p, quantity := q, requirements := [], delivery_files := [],
           timeline := [{ id := db.nextId + 1, action := "order_created",
                          user_id := some c, timestamp := now, extra := [] }],
           status := "pending", created_at := now, updated_at := now,
           expected_delivery := none, started_at := none, delivered_at := none,
           completed_at := none, cancelled_at := none }]) := by
  constructor
  · constructor
    · intro h1
      simp only [create_order] at h1
      split at h1
      · simp [Res.isErr] at h1
      · next n1 =>
        split at h1
        · simp [Res.isErr] at h1
        · next n2 =>
          split at h1
          · simp [Res.isErr] at h1
          · next n3 =>
            split at h1
            · simp [Res.isErr] at h1
            · next n4 =>
              split at h1
              · simp [Res.isErr] at h1
              · next n5 =>
                split at h1
                · simp [Res.isErr] at h1
                · next v1 =>
                  split at h1
                  · simp [Res.isErr] at h1
                  · next v2 =>
                    split at h1
                    · simp [Res.isErr] at h1
                    · next v3 =>
                      obtain ⟨g, hg⟩ :=
                        Option.ne_none_iff_exists'.mp (fun h => n1 (Or.inl h))
                      obtain ⟨c, hc⟩ :=
                        Option.ne_none_iff_exists'.mp (fun h => n2 (Or.inl h))
                      obtain ⟨f, hf⟩ :=
                        Option.ne_none_iff_exists'.mp (fun h => n3 (Or.inl h))
                      obtain ⟨p, hp⟩ :=
                        Option.ne_none_iff_exists'.mp (fun h => n4 (Or.inl h))
                      obtain ⟨q, hq⟩ :=
                        Option.ne_none_iff_exists'.mp (fun h => n5 (Or.inl h))
                      refine ⟨⟨g, hg, fun he => n1 (Or.inr (by rw [hg, he])),
                          by simpa [hg] using v1⟩,
                        ⟨c, hc, fun he => n2 (Or.inr (by rw [hc, he])),
                          by simpa [hc] using v2⟩,
                        ⟨f, hf, fun he => n3 (Or.inr (by rw [hf, he])),
                          by simpa [hf] using v3⟩,
                        ⟨p, hp, fun he => n4 (Or.inr (by rw [hp, he]))⟩,
                        ⟨q, hq, fun he => n5 (Or.inr (by rw [hq, he]))⟩⟩
    · rintro ⟨⟨g, hg, hgne, hgv⟩, ⟨c, hc, hcne, hcv⟩, ⟨f, hf, hfne, hfv⟩,
        ⟨p, hp, hpne⟩, ⟨q, hq, hqne⟩⟩
      rw [create_order_eq_success db now data g c f p q hg hgne hgv hc hcne hcv
        hf hfne hfv hp hpne hq hqne]
      rfl
  · intro g c f p q hg hgv hc hcv hf hfv hp hpne hq hqne hfresh
    have hgne : g ≠ "" := by
      intro he
      rw [he] at hgv
      exact absurd hgv (by decide)
    have hcne : c ≠ "" := by
      intro he
      rw [he] at hcv
      exact absurd hcv (by decide)
    have hfne : f ≠ "" := by
      intro he
      rw [he] at hfv
      exact absurd hfv (by decide)
    rw [create_order_eq_success db now data g c f p q hg hgne hgv hc hcne hcv
      hf hfne hfv hp hpne hq hqne]
    refine ⟨rfl, ?_⟩
    show updateFirstBy _ _ _ = _
    rw [updateFirstBy_append_singleton _ _ _ _ hfresh (by simp)]
    simp

theorem C7_create_characterization_witness :
    (create_order emptyDB 0 createData0).1 = Res.ok (some (freshOid 0)) :=
  ((C7_create_characterization emptyDB 0 createData0).2 oidG oidC oidF 100 2
    rfl (by decide) rfl (by decide) rfl (by decide) rfl (by decide) rfl (by decide)
    (by decide)).1


/-- C8: whenever a transition operation (confirm, start, deliver,
request_revision, complete, cancel, dispute) returns a failure of any kind,
the stored state — orders with all their fields, payments and gig
statistics — is exactly what it was before the call. -/
theorem C8_failure_leaves_state_unchanged (db : DB) (now : Int) :
    (∀ oid cid, ((confirm_order db now oid cid).1).isErr = true →
       (confirm_order db now oid cid).2 = db) ∧
    (∀ oid fid exp, ((start_order db now oid fid exp).1).isErr = true →
       (start_order db now oid fid exp).2 = db) ∧
    (∀ oid fid files msg, ((deliver_order db now oid fid files msg).1).isErr = true →
       (deliver_order db now oid fid files msg).2 = db) ∧
    (∀ oid cid notes, ((request_revision db now oid cid notes).1).isErr = true →
       (request_revision db now oid cid notes).2 = db) ∧
    (∀ oid cid, ((complete_order db now oid cid).1).isErr = true →
       (complete_order db now oid cid).2 = db) ∧
    (∀ oid uid reason, ((cancel_order db now oid uid reason).1).isErr = true →
       (cancel_order db now oid uid reason).2 = db) ∧
    (∀ oid uid msg, ((dispute_order db now oid uid msg).1).isErr = true →
       (dispute_order db now oid uid msg).2 = db) :=
  ⟨fun oid cid => confirm_order_fail_frame db now oid cid,
   fun oid fid exp => start_order_fail_frame db now oid fid exp,
   fun oid fid files msg => deliver_order_fail_frame db now oid fid files msg,
   fun oid cid notes => request_revision_fail_frame db now oid cid notes,
   fun oid cid => complete_order_fail_frame db now oid cid,
   fun oid uid reason => cancel_order_fail_frame db now oid uid reason,
   fun oid uid msg => dispute_order_fail_frame db now oid uid msg⟩

theorem C8_failure_leaves_state_unchanged_witness :
    (confirm_order (mkDB "delivered") 5 oidA oidC).2 = mkDB "delivered" ∧
    (start_order (mkDB "pending") 5 oidA oidF none).2 = mkDB "pending" ∧
    (deliver_order (mkDB "in_progress") 5 oidA oidF [] none).2 = mkDB "in_progress" ∧
    (request_revision (mkDB "delivered") 5 oidA oidC "").2 = mkDB "delivered" ∧
    (complete_order (mkDB "completed") 5 oidA oidC).2 = mkDB "completed" ∧
    (cancel_order (mkDB "completed") 5 oidA oidC none).2 = mkDB "completed" ∧
    (dispute_order (mkDB "pending") 5 oidA oidC "").2 = mkDB "pending" :=
  ⟨(C8_failure_leaves_state_unchanged (mkDB "delivered") 5).1 oidA oidC (by decide),
   (C8_failure_leaves_state_unchanged (mkDB "pending") 5).2.1 oidA oidF none (by decide),
   (C8_failure_leaves_state_unchanged (mkDB "in_progress") 5).2.2.1 oidA oidF [] none
     (by decide),
   (C8_failure_leaves_state_unchanged (mkDB "delivered") 5).2.2.2.1 oidA oidC ""
     (by decide),
   (C8_failure_leaves_state_unchanged (mkDB "completed") 5).2.2.2.2.1 oidA oidC
     (by decide),
   (C8_failure_leaves_state_unchanged (mkDB "completed") 5).2.2.2.2.2.1 oidA oidC none
     (by decide),
   (C8_failure_leaves_state_unchanged (mkDB "pending") 5).2.2.2.2.2.2 oidA oidC ""
     (by decide)⟩

/-- C9 counterexample: a successful deliver and a successful cancel (at
instant 5, on an order whose updated_at is 0) leave updated_at untouched —
their `$set` omits it, unlike confirm/start/request_revision/complete. -/
theorem C9_counterexample :
    (deliver_order (mkDB "in_progress") 5 oidA oidF
        [{ file_url := "u", file_name := none }] none).1 = Res.ok none ∧
    (findOrder (deliver_order (mkDB "in_progress") 5 oidA oidF
        [{ file_url := "u", file_name := none }] none).2 oidA).map
        Order.updated_at = some 0 ∧
    (cancel_order (mkDB "pending") 5 oidA oidC (some "r")).1 = Res.ok none ∧
    (findOrder (cancel_order (mkDB "pending") 5 oidA oidC (some "r")).2 oidA).map
        Order.updated_at = some 0 := by decide

/-- C9 (amended): confirm, start, request_revision, complete, dispute,
resolve_dispute and extend_deadline set updated_at = now as part of their
successful write, but a successful deliver and a successful cancel (on
either role path) do not touch updated_at at all (deliver writes
status/delivered_at, cancel writes status/cancelled_at/cancel_reason). -/
theorem C9_updated_at_behaviour (db : DB) (now : Int) (oid : String) (o : Order)
    (hv : isValidOid oid = true) (hf : findOrder db oid = some o) :
    (∀ fid files msg, o.status = "in_progress" → o.freelancer_id = fid → files ≠ [] →
       ∃ o', findOrder (deliver_order db now oid fid files msg).2 oid = some o' ∧
         o'.updated_at = o.updated_at ∧ o'.status = "delivered") ∧
    (∀ uid reason, (o.status = "pending" ∨ o.status = "accepted") → o.client_id = uid →
       ∃ o', findOrder (cancel_order db now oid uid reason).2 oid = some o' ∧
         o'.updated_at = o.updated_at ∧ o'.status = "cancelled") ∧
    (∀ uid reason, o.status = "in_progress" → o.freelancer_id = uid →
       ∃ o', findOrder (cancel_order db now oid uid reason).2 oid = some o' ∧
         o'.updated_at = o.updated_at ∧ o'.status = "cancelled") ∧
    (∀ cid, o.status = "pending" → o.client_id = cid →
       ∃ o', findOrder (confirm_order db now oid cid).2 oid = some o' ∧
         o'.updated_at = now) ∧
    (∀ fid exp, o.status = "accepted" → o.freelancer_id = fid →
       ∃ o', findOrder (start_order db now oid fid exp).2 oid = some o' ∧
         o'.updated_at = now) ∧
    (∀ cid notes, o.status = "delivered" → o.client_id = cid → notes ≠ "" →
       ∃ o', findOrder (request_revision db now oid cid notes).2 oid = some o' ∧
         o'.updated_at = now) ∧
    (∀ cid, o.status = "delivered" → o.client_id = cid →
       ∃ o', findOrder (complete_order db now oid cid).2 oid = some o' ∧
         o'.updated_at = now) ∧
    (∀ uid msg, msg ≠ "" →
       ∃ o', findOrder (dispute_order db now oid uid msg).2 oid = some o' ∧
         o'.updated_at = now) ∧
    (∀ data, ∃ o', findOrder (resolve_dispute db now oid data).2 oid = some o' ∧
       o'.updated_at = now) ∧
    (∀ uid edata d, o.expected_delivery = some d →
       ∃ o', findOrder (extend_deadline db now oid uid edata).2 oid = some o' ∧
         o'.updated_at = now) := by
  have hf' : db.orders.find? (fun x => x.id == oid) = some o := hf
  have hp := List.find?_some hf'
  refine ⟨?_, ?_, ?_, ?_, ?_, ?_, ?_, ?_, ?_, ?_⟩
  · intro fid files msg hs hfr hfe
    rw [deliver_order_eq_success db now oid fid files msg o hv hf hs hfr hfe]
    have h1 := find?_updateFirstBy (fun x : Order => x.id == oid)
      (fun x : Order =>
        { x with
          delivery_files := x.delivery_files ++ deliveredFiles db.nextId now files,
          status := "delivered", delivered_at := some now })
      db.orders o hf' hp
    have h2 := find?_updateFirstBy (fun x : Order => x.id == oid)
      (fun x : Order => { x with timeline := x.timeline ++
          [{ id := db.nextId + files.length, action := "order_delivered",
             user_id := some fid, timestamp := now, extra := [("message", msg)] }] })
      _ _ h1 hp
    exact ⟨_, h2, rfl, rfl⟩
  · intro uid reason hs hu
    rw [cancel_order_eq_client db now oid uid reason o hv hf hs hu]
    have h1 := find?_updateFirstBy (fun x : Order => x.id == oid)
      (fun x : Order =>
        { x with status := "cancelled", cancelled_at := some now,
                 cancel_reason := some reason })
      db.orders o hf' hp
    have h2 := find?_updateFirstBy (fun x : Order => x.id == oid)
      (fun x : Order => { x with timeline := x.timeline ++
          [{ id := db.nextId, action := "order_cancelled", user_id := some uid,
             timestamp := now, extra := [("reason", reason)] }] })
      _ _ h1 hp
    exact ⟨_, h2, rfl, rfl⟩
  · intro uid reason hs hu
    rw [cancel_order_eq_freelancer db now oid uid reason o hv hf hs hu]
    have h1 := find?_updateFirstBy (fun x : Order => x.id == oid)
      (fun x : Order =>
        { x with status := "cancelled", cancelled_at := some now,
                 cancel_reason := some reason })
      db.orders o hf' hp
    have h2 := find?_updateFirstBy (fun x : Order => x.id == oid)
      (fun x : Order => { x with timeline := x.timeline ++
          [{ id := db.nextId, action := "order_cancelled", user_id := some uid,
             timestamp := now, extra := [("reason", reason)] }] })
      _ _ h1 hp
    exact ⟨_, h2, rfl, rfl⟩
  · intro cid hs hc
    rw [confirm_order_eq_success db now oid cid o hv hf hs hc]
    have h1 := find?_updateFirstBy (fun x : Order => x.id == oid)
      (fun x : Order => { x with status := "accepted", updated_at := now })
      db.orders o hf' hp
    have h2 := find?_updateFirstBy (fun x : Order => x.id == oid)
      (fun x : Order => { x with timeline := x.timeline ++
          [{ id := db.nextId, action := "order_confirmed", user_id := some cid,
             timestamp := now, extra := [] }] })
      _ _ h1 hp
    exact ⟨_, h2, rfl⟩
  · intro fid exp hs hfr
    rw [start_order_eq_success db now oid fid exp o hv hf hs hfr]
    have h1 := find?_updateFirstBy (fun x : Order => x.id == oid)
      (fun x : Order =>
        { x with status := "in_progress", expected_delivery := exp,
                 started_at := some now, updated_at := now })
      db.orders o hf' hp
    have h2 := find?_updateFirstBy (fun x : Order => x.id == oid)
      (fun x : Order => { x with timeline := x.timeline ++
          [{ id := db.nextId, action := "order_started", user_id := some fid,
             timestamp := now, extra := [] }] })
      _ _ h1 hp
    exact ⟨_, h2, rfl⟩
  · intro cid notes hs hc hn
    rw [request_revision_eq_success db now oid cid notes o hn hv hf hs hc]
    have h1 := find?_updateFirstBy (fun x : Order => x.id == oid)
      (fun x : Order => { x with status := "revision_requested", updated_at := now })
      db.orders o hf' hp
    have h2 := find?_updateFirstBy (fun x : Order => x.id == oid)
      (fun x : Order => { x with timeline := x.timeline ++
          [{ id := db.nextId, action := "revision_requested", user_id := some cid,
             timestamp := now, extra := [("reason", some notes)] }] })
      _ _ h1 hp
    exact ⟨_, h2, rfl⟩
  · intro cid hs hc
    rw [complete_order_eq_success db now oid cid o hv hf hs hc]
    have h1 := find?_updateFirstBy (fun x : Order => x.id == oid)
      (fun x : Order =>
        { x with status := "completed", completed_at := some now, updated_at := now })
      db.orders o hf' hp
    have h2 := find?_updateFirstBy (fun x : Order => x.id == oid)
      (fun x : Order => { x with timeline := x.timeline ++
          [{ id := db.nextId + 1, action := "order_completed", user_id := some cid,
             timestamp := now, extra := [] }] })
      _ _ h1 hp
    exact ⟨_, h2, rfl⟩
  · intro uid msg hm
    rw [dispute_order_eq db now oid uid msg hm hv]
    have h1 := find?_updateFirstBy (fun x : Order => x.id == oid)
      (fun x : Order => { x with status := "disputed", updated_at := now })
      db.orders o hf' hp
    have h2 := find?_updateFirstBy (fun x : Order => x.id == oid)
      (fun x : Order => { x with timeline := x.timeline ++
          [{ id := db.nextId, action := "order_disputed", user_id := some uid,
             timestamp := now, extra := [("message", some msg)] }] })
      _ _ h1 hp
    exact ⟨_, h2, rfl⟩
  · intro data
    rw [resolve_dispute_eq db now oid data hv]
    have h1 := find?_updateFirstBy (fun x : Order => x.id == oid)
      (fun x : Order =>
        { x with status := "resolved", dispute_resolution := some data,
                 updated_at := now })
      db.orders o hf' hp
    have h2 := find?_updateFirstBy (fun x : Order => x.id == oid)
      (fun x : Order => { x with timeline := x.timeline ++
          [{ id := db.nextId, action := "dispute_resolved", user_id := none,
             timestamp := now, extra := [("resolution", some data)] }] })
      _ _ h1 hp
    exact ⟨_, h2, rfl⟩
  · intro uid edata d hd
    rw [extend_deadline_eq_success db now oid uid edata o d hv hf hd]
    have h1 := find?_updateFirstBy (fun x : Order => x.id == oid)
      (fun x : Order =>
        { x with expected_delivery := some (d + edata.days.getD 0 * 86400),
                 updated_at := now })
      db.orders o hf' hp
    have h2 := find?_updateFirstBy (fun x : Order => x.id == oid)
      (fun x : Order => { x with timeline := x.timeline ++
          [{ id := db.nextId, action := "deadline_extended", user_id := some uid,
             timestamp := now,
             extra := [("new_deadline",
               some (toString (d + edata.days.getD 0 * 86400)))] }] })
      _ _ h1 hp
    exact ⟨_, h2, rfl⟩

theorem C9_updated_at_behaviour_witness :
    ∃ o', findOrder (deliver_order (mkDB "in_progress") 5 oidA oidF
        [{ file_url := "u", file_name := none }] none).2 oidA = some o' ∧
      o'.updated_at = (mkOrder "in_progress").updated_at ∧ o'.status = "delivered" :=
  (C9_updated_at_behaviour (mkDB "in_progress") 5 oidA (mkOrder "in_progress")
    (by decide) rfl).1 oidF [{ file_url := "u", file_name := none }] none
    rfl rfl (by decide)

/-- An order with `expected_delivery` already set. -/
def mkOrderWithDeadline (status : String) : Order :=
  { mkOrder status with expected_delivery := some 1000 }

/-- A database holding one order with a deadline. -/
def mkDBWithDeadline (status : String) : DB :=
  { mkDB status with orders := [mkOrderWithDeadline status] }

/-- C10: extend_deadline performs no role check and no status check: for any
caller identity and any current status (terminal ones included) it succeeds
whenever the order exists and has a non-null expected_delivery, adding
data["days"] days to it; it fails exactly for a missing order or a null
expected_delivery. -/
theorem C10_extend_deadline_unguarded (db : DB) (now : Int) (oid uid : String)
    (data : ExtendData) (hv : isValidOid oid = true) :
    (∀ o d, findOrder db oid = some o → o.expected_delivery = some d →
       (extend_deadline db now oid uid data).1 = Res.ok none ∧
       ∃ o', findOrder (extend_deadline db now oid uid data).2 oid = some o' ∧
         o'.expected_delivery = some (d + data.days.getD 0 * 86400) ∧
         o'.status = o.status) ∧
    (findOrder db oid = none →
       (extend_deadline db now oid uid data).1 = Res.err "Order not found" ∧
       (extend_deadline db now oid uid data).2 = db) ∧
    (∀ o, findOrder db oid = some o → o.expected_delivery = none →
       (extend_deadline db now oid uid data).1 =
         Res.err "No expected delivery to extend" ∧
       (extend_deadline db now oid uid data).2 = db) := by
  refine ⟨?_, ?_, ?_⟩
  · intro o d hf hd
    have hf' : db.orders.find? (fun x => x.id == oid) = some o := hf
    have hp := List.find?_some hf'
    rw [extend_deadline_eq_success db now oid uid data o d hv hf hd]
    have h1 := find?_updateFirstBy (fun x : Order => x.id == oid)
      (fun x : Order =>
        { x with expected_delivery := some (d + data.days.getD 0 * 86400),
                 updated_at := now })
      db.orders o hf' hp
    have h2 := find?_updateFirstBy (fun x : Order => x.id == oid)
      (fun x : Order => { x with timeline := x.timeline ++
          [{ id := db.nextId, action := "deadline_extended", user_id := some uid,
             timestamp := now,
             extra := [("new_deadline",
               some (toString (d + data.days.getD 0 * 86400)))] }] })
      _ _ h1 hp
    exact ⟨rfl, _, h2, rfl, rfl⟩
  · intro hn
    constructor <;> simp [extend_deadline, hv, hn]
  · intro o hf hd
    constructor <;> simp [extend_deadline, hv, hf, hd]

theorem C10_extend_deadline_unguarded_witness :
    (extend_deadline (mkDBWithDeadline "completed") 5 oidA oidG
        { days := some 3 }).1 = Res.ok none :=
  ((C10_extend_deadline_unguarded (mkDBWithDeadline "completed") 5 oidA oidG
      { days := some 3 } (by decide)).1 (mkOrderWithDeadline "completed") 1000
      rfl rfl).1

end OrdersService
